import Mathlib

/-!
Shallow embedding of translatepy/translators/deepl.py and
translatepy/translators/bing.py, together with theorems checking the
specification claims about sentence splitting, glossary handling,
job building, request-parameter construction and result assembly.

Network effects (HTTP posts, the remote JSONRPC responses, the pandas
CSV read) are passed into the embedded functions as explicit outcome
parameters of type Except PyErr.
-/

set_option autoImplicit false

/-- Python exception outcomes relevant to the embedded code paths:
generic runtime errors plus DeeplTranslateException carrying a numeric
error code. -/
inductive PyErr where
  | attributeError : PyErr
  | keyError : PyErr
  | indexError : PyErr
  | typeError : PyErr
  | transport : PyErr
  | deepl (code : Int) : PyErr
deriving DecidableEq

instance {ε α : Type} [DecidableEq ε] [DecidableEq α] : DecidableEq (Except ε α) := fun a b =>
  match a, b with
  | .ok x, .ok y =>
    if h : x = y then .isTrue (by subst h; rfl)
    else .isFalse (fun hh => h (Except.ok.inj hh))
  | .error x, .error y =>
    if h : x = y then .isTrue (by subst h; rfl)
    else .isFalse (fun hh => h (Except.error.inj hh))
  | .ok _, .error _ => .isFalse (fun hh => Except.noConfusion hh)
  | .error _, .ok _ => .isFalse (fun hh => Except.noConfusion hh)

/-- Embeds DeeplTranslateException.error_codes (deepl.py lines 32-49):
the mapping from numeric error code to message, none for unknown codes. -/
def error_codes (code : Int) : Option String :=
  if code = -32600 then some "Invalid Request: Invalid commonJobParams."
  else if code = 1042911 then some "Too many requests."
  else if code = 1042912 then some "Too many requests."
  else if code = 1156049 then some "Invalid Request"
  else if code = 5000 then some "Unsported language for glossary."
  else if code = 5001 then some "Invalid CSV file: Same source and target language."
  else if code = 5002 then some "Invalid CSV file: EN can only be combined with FR, DE, ES, IT, PL, JA, NL."
  else if code = 5003 then some "Invalid CSV file: FR can only be combined with EN, DE, ES, IT, PL, JA, NL."
  else if code = 5004 then some "Invalid CSV file: DE can only be combined with EN, FR, ES, IT, PL, JA, NL."
  else if code = 5005 then some "Invalid CSV file: ES can only be combined with EN, FR, DE, IT, PL, JA, NL."
  else if code = 5006 then some "Invalid CSV file: IT can only be combined with EN, FR, DE, ES, PL, JA, NL."
  else if code = 5007 then some "Invalid CSV file: PL can only be combined with EN, FR, DE, ES, IT, JA, NL."
  else if code = 5008 then some "Invalid CSV file: JA can only be combined with EN, FR, DE, ES, IT, PL, NL."
  else if code = 5009 then some "Invalid CSV file: NL can only be combined with EN, FR, DE, ES, IT, PL, JA."
  else if code = 5010 then some "Invalid CSV file: Error in the header (or in its declaration in the \x27load_glossary_from_csv\x27 function)"
  else if code = 5011 then some "Syntax Error: The combination in the glossary does not correspond to the combination declared in the translate function."
  else none

/-- True for the lookbehind characters [.!:?] of SENTENCES_SPLITTING_REGEX. -/
def sentence_end (c : Char) : Bool :=
  c == '.' || c == '!' || c == ':' || c == '?'

/-- Embeds re.split with SENTENCES_SPLITTING_REGEX (deepl.py line 24),
the pattern being one or more spaces preceded by one of . ! : ? .
Walks the characters: a new chunk starts at every maximal run of spaces
whose first space is immediately preceded by a sentence-ending char.
`prev` is the previously consumed character and `inRun` is true while
inside the greedy space run of a match. -/
def regex_split_aux : List Char → Option Char → Bool → String → List String
  | [], _, _, acc => [acc]
  | c :: rest, prev, inRun, acc =>
    if inRun && c == ' ' then
      regex_split_aux rest (some ' ') true acc
    else if (match prev with | some p => sentence_end p | none => false) && c == ' ' then
      acc :: regex_split_aux rest (some ' ') true ""
    else
      regex_split_aux rest (some c) false (acc.push c)

/-- SENTENCES_SPLITTING_REGEX.split(text). -/
def regex_split (text : String) : List String :=
  regex_split_aux text.data none false ""

/-- The local constant REGEX_SPLIT set at deepl.py line 136. -/
def REGEX_SPLIT : Bool := true

/-- Embeds _split_into_sentences (deepl.py lines 129-150). The remote
LMT_split_into_sentences call is passed in as its outcome `remote`
(a transport or RPC failure becomes a PyErr). REGEX_SPLIT is True in
the source, but the guarded line merely computes the tuple
(SENTENCES_SPLITTING_REGEX.split(text), None) without a return
statement, so the value is discarded and the remote call is always
made, with remote failures propagating to the caller. -/
def split_into_sentences (remote : Except PyErr (List String × Option String))
    (text : String) : Except PyErr (List String × Option String) :=
  let _discarded :=
    if REGEX_SPLIT then some (regex_split text, (none : Option String)) else none
  remote

/-- Python substring test `needle in hay` on strings. -/
def str_in (needle hay : String) : Bool :=
  decide (needle.data <:+: hay.data)

/-- Python str.upper on the ASCII language codes, mapping each character. -/
def str_upper (s : String) : String :=
  String.mk (s.data.map Char.toUpper)

/-- The double-quote character checked at deepl.py line 216. -/
def quote_char : Char := Char.ofNat 34

/-- Python test for the double-quote character occurring in a string. -/
def has_quote (s : String) : Bool :=
  s.data.contains quote_char

/-- FormatedGlossary as consumed by _translate: the dataframe rows as
(source word, target word) pairs in dataframe order plus the declared
language pair. The embedding assumes unique source words, which is what
load_glossary_from_csv produces after drop_duplicates; under that
assumption the pandas lookup target_word.values[0] for a word resolves
to the target of the same row. -/
structure FormatedGlossary where
  entries : List (String × String)
  source_language : String
  target_language : String
deriving DecidableEq

/-- Embeds the glossary matching loop of _translate (deepl.py lines
210-224): for each row whose source word is a substring of the text,
while limit is positive, appends word TAB target NEWLINE; limit is
decremented only when a pair is emitted; rows whose source or target
word contains a double quote are skipped with a warning (the source
also warns once the limit is exhausted; warnings carry no state). -/
def match_loop (text : String) : List (String × String) → Nat → String → String
  | [], _, acc => acc
  | (word, target) :: rest, limit, acc =>
    if str_in word text && decide (0 < limit) then
      if !has_quote target && !has_quote word then
        match_loop text rest (limit - 1) (acc ++ word ++ "\t" ++ target ++ "\n")
      else
        match_loop text rest limit acc
    else
      match_loop text rest limit acc

/-- Observation function for the same loop: the list of pairs emitted by
match_loop, in order. -/
def matched_pairs (text : String) : List (String × String) → Nat → List (String × String)
  | [], _ => []
  | (word, target) :: rest, limit =>
    if str_in word text && decide (0 < limit) then
      if !has_quote target && !has_quote word then
        (word, target) :: matched_pairs text rest (limit - 1)
      else
        matched_pairs text rest limit
    else
      matched_pairs text rest limit

/-- Serialization of one emitted glossary pair. -/
def pair_line (p : String × String) : String :=
  p.1 ++ "\t" ++ p.2 ++ "\n"

/-- Concatenation of the serialized pairs. -/
def join_lines : List (String × String) → String
  | [] => ""
  | p :: rest => pair_line p ++ join_lines rest

/-- The literal QUOTE TAB QUOTE NEWLINE string removed at deepl.py line 226. -/
def quote_tab_quote_nl : String := "\x22\t\x22\n"

/-- Python str.replace with an empty replacement: removes the
non-overlapping occurrences of pat left to right. The fuel argument
bounds the recursion by the length of the scanned list. -/
def remove_pattern (pat : List Char) : Nat → List Char → List Char
  | _, [] => []
  | 0, l => l
  | fuel + 1, c :: rest =>
    if pat.isPrefixOf (c :: rest) then
      remove_pattern pat fuel ((c :: rest).drop pat.length)
    else
      c :: remove_pattern pat fuel rest

/-- Embeds the trailing cleanup of formated_string (deepl.py lines
225-228): when the string is nonempty, remove every literal QUOTE TAB
QUOTE NEWLINE substring, then inspect the last character (an IndexError
if the string became empty) and drop it when it is a newline. -/
def finalize_termbase (s : String) : Except PyErr String :=
  if s = "" then .ok s
  else
    let s2 := String.mk (remove_pattern quote_tab_quote_nl.data s.data.length s.data)
    match s2.data.getLast? with
    | none => .error .indexError
    | some c => .ok (if c == Char.ofNat 10 then String.mk s2.data.dropLast else s2)

/-- Python comparison `dictionary != ""` at deepl.py line 207: both None
and any FormatedGlossary object compare unequal to the empty string, so
the guard is always True. -/
def dictionary_ne_empty_string (_dictionary : Option FormatedGlossary) : Bool := true

/-- Embeds the termbase-building section of _translate (deepl.py lines
203-228). `dictionary` is the glossary argument, whose Python default is
None. Entering the guarded block with None raises an AttributeError at
dictionary.source_language. The 5011 check uses the Python substring
test `in` against the declared language strings. -/
def build_termbase (dictionary : Option FormatedGlossary)
    (text source_language destination_language : String) : Except PyErr String :=
  if dictionary_ne_empty_string dictionary then
    match dictionary with
    | none => .error .attributeError
    | some d =>
      if !str_in (str_upper source_language) d.source_language
          || !str_in (str_upper destination_language) d.target_language then
        .error (.deepl 5011)
      else
        finalize_termbase (match_loop text d.entries 10 "")
  else
    .ok ""

/-- The _glossary_supported_languages set (deepl.py line 122). -/
def glossary_supported_languages : List String :=
  ["DE", "EN", "ES", "FR", "JA", "IT", "PL", "NL"]

/-- Embeds load_glossary_from_csv (deepl.py lines 152-199). The pandas
effects are passed in: `csvRead` is the outcome of pd.read_csv at line
172 and `csvFinal` the outcome of the column-uppercasing, sort, dedup
and construction stage at lines 190-199, which raises code 5010 when
the source-language column is missing. The checks run in source order:
5000, 5001, the CSV read, then the pair-combination checks 5002-5009. -/
def load_glossary_from_csv (csvRead : Except PyErr Unit)
    (csvFinal : Except PyErr FormatedGlossary)
    (source_language target_language : String) : Except PyErr FormatedGlossary :=
  let source := str_upper source_language
  let target := str_upper target_language
  if ¬ (source ∈ glossary_supported_languages) ∨ ¬ (target ∈ glossary_supported_languages) then
    .error (.deepl 5000)
  else if source = target then
    .error (.deepl 5001)
  else
    match csvRead with
    | .error e => .error e
    | .ok () =>
      if source = "EN" ∧ ¬ target ∈ ["FR", "DE", "ES", "IT", "PL", "JA", "NL"] then
        .error (.deepl 5002)
      else if source = "FR" ∧ ¬ target ∈ ["EN", "DE", "ES", "IT", "PL", "JA", "NL"] then
        .error (.deepl 5003)
      else if source = "DE" ∧ ¬ target ∈ ["EN", "FR", "ES", "IT", "PL", "JA", "NL"] then
        .error (.deepl 5004)
      else if source = "ES" ∧ ¬ target ∈ ["EN", "FR", "DE", "IT", "PL", "JA", "NL"] then
        .error (.deepl 5005)
      else if source = "IT" ∧ ¬ target ∈ ["EN", "FR", "DE", "ES", "PL", "JA", "NL"] then
        .error (.deepl 5006)
      else if source = "PL" ∧ ¬ target ∈ ["EN", "FR", "DE", "ES", "IT", "JA", "NL"] then
        .error (.deepl 5007)
      else if source = "JA" ∧ ¬ target ∈ ["EN", "FR", "DE", "ES", "IT", "PL", "NL"] then
        .error (.deepl 5008)
      else if source = "NL" ∧ ¬ target ∈ ["EN", "FR", "DE", "ES", "IT", "PL", "JA"] then
        .error (.deepl 5009)
      else
        csvFinal

/-- One job record built by _build_jobs (deepl.py lines 347-356). The
sentences entry of the Python dict is the single record
text / id 0 / empty prefix string; the quality key is present only when
the quality argument is nonempty. -/
structure Job where
  kind : String := "default"
  preferred_num_beams : Nat := 4
  raw_en_context_after : List String
  raw_en_context_before : List String
  text : String
  sentence_id : Nat := 0
  prefix_str : String := ""
  quality : Option String := none
deriving DecidableEq

/-- Placeholder job used as the default of List.getD in statements. -/
def default_job : Job :=
  { raw_en_context_after := [], raw_en_context_before := [], text := "" }

/-- Embeds the loop body of _build_jobs (deepl.py lines 329-359). The
fuel argument counts the remaining iterations (the Python for loop runs
once per sentence); `index` is the enumerate counter and `before` the
mutable context list carried across iterations. At index 0 the list is
reset to empty; otherwise it is popped at the front once it holds more
than 4 elements and the previous sentence is appended. The after
context is the single next sentence when one exists (the try/except at
index 0 and the conditional expression at later indices implement the
same bound check). -/
def build_jobs_aux (sentences : List String) (quality : String) :
    Nat → Nat → List String → List Job
  | 0, _, _ => []
  | fuel + 1, index, before =>
    let before :=
      if index = 0 then []
      else (if before.length > 4 then before.tail else before) ++ [sentences.getD (index - 1) ""]
    let after :=
      if index + 1 < sentences.length then [sentences.getD (index + 1) ""] else []
    { raw_en_context_after := after,
      raw_en_context_before := before,
      text := sentences.getD index "",
      quality := if quality = "" then none else some quality } ::
      build_jobs_aux sentences quality fuel (index + 1) before

/-- Embeds _build_jobs: one loop iteration per sentence. -/
def build_jobs (sentences : List String) (quality : String) : List Job :=
  build_jobs_aux sentences quality sentences.length 0 []

/-- The context window of up to 5 sentences immediately preceding index i. -/
def ctx_before (s : List String) (i : Nat) : List String :=
  (s.take i).drop (i - 5)

/-- The context window holding the single sentence after index i, when any. -/
def ctx_after (s : List String) (i : Nat) : List String :=
  (s.drop (i + 1)).take 1

/-- Closed form of the job built for index i. -/
def job_spec (s : List String) (q : String) (i : Nat) : Job :=
  { raw_en_context_after := ctx_after s i,
    raw_en_context_before := ctx_before s i,
    text := s.getD i "",
    quality := if q = "" then none else some q }

/-- The count 1 + total occurrences of the character i over all
sentences (deepl.py lines 236 and 286). -/
def i_count (sentences : List String) : Nat :=
  1 + (sentences.map (fun s => s.data.count 'i')).sum

/-- The lang sub-dictionary of the _translate job-batch params (deepl.py
lines 241-248 and 259-263). Option-valued fields model keys that may be
absent from the Python dict; user_preferred_langs is never put into the
dict by _translate. -/
structure TranslateLang where
  preference_default : String := "default"
  source_lang_computed : Option String
  target_lang : String
  source_lang_user_selected : Option String := none
  user_preferred_langs : Option (List (Option String)) := none
deriving DecidableEq

/-- The job-batch params dict of _translate (deepl.py lines 239-257). -/
structure JobParams where
  jobs : List Job
  lang : TranslateLang
  priority : Int := 1
  browserType : Nat := 1
  formality : Option String
  mode : String := "translate"
  termbase_dictionary : String
  timestamp : Nat
deriving DecidableEq

/-- Embeds the params building of _translate (deepl.py lines 234-257):
jobs from _build_jobs with empty quality, the lang block carrying the
caller source language as source_lang_computed, and the timestamp
ts + (i_count - ts % i_count) where ts is the clock value
int(time() * 10) * 100 + 1000 passed in as a parameter. -/
def mk_translate_params (sentences : List String)
    (source_language destination_language : String) (formality : Option String)
    (formated_string : String) (ts : Nat) : JobParams :=
  { jobs := build_jobs sentences "",
    lang := { source_lang_computed := some source_language,
              target_lang := destination_language },
    formality := formality,
    termbase_dictionary := formated_string,
    timestamp := ts + (i_count sentences - ts % i_count sentences) }

/-- Embeds the source-language merge of _translate (deepl.py lines
259-263): for the literal source "auto" it overwrites
source_lang_computed with the computed language and then appends to
params lang user_preferred_langs, a key that was never created, which
raises a KeyError; otherwise it records source_lang_user_selected. -/
def merge_source_lang (params : JobParams) (source_language : String)
    (computed_lang : Option String) : Except PyErr JobParams :=
  if source_language = "auto" then
    let params :=
      { params with lang := { params.lang with source_lang_computed := computed_lang } }
    match params.lang.user_preferred_langs with
    | none => .error .keyError
    | some langs =>
      .ok { params with
            lang := { params.lang with
                      user_preferred_langs := some (langs ++ [computed_lang]) } }
  else
    .ok { params with
          lang := { params.lang with source_lang_user_selected := some source_language } }

/-- The params building plus source-language merge of _translate
(deepl.py lines 234-263). -/
def translate_params (sentences : List String) (computed_lang : Option String)
    (source_language destination_language : String) (formality : Option String)
    (formated_string : String) (ts : Nat) : Except PyErr JobParams :=
  merge_source_lang
    (mk_translate_params sentences source_language destination_language formality
      formated_string ts)
    source_language computed_lang

/-- Boolean success test on an embedded outcome. -/
def is_ok (e : Except PyErr JobParams) : Bool :=
  match e with
  | .ok _ => true
  | .error _ => false

/-- The lang sub-dictionary of the _language job-batch params (deepl.py
lines 292-296 and 301-305); here user_preferred_langs is created with
the entry FR before the merge. -/
structure LanguageLang where
  preference_default : String := "default"
  target_lang : String := "FR"
  user_preferred_langs : List (Option String) := [some "FR"]
  source_lang_computed : Option String := none
  source_lang_user_selected : Option String := none
deriving DecidableEq

/-- The job-batch params dict of _language (deepl.py lines 290-299). -/
structure LanguageParams where
  jobs : List Job
  lang : LanguageLang := {}
  priority : Int := 1
  timestamp : Nat
deriving DecidableEq

/-- Embeds the params building of _language (deepl.py lines 283-299),
with the same timestamp formula as _translate. -/
def mk_language_params (sentences : List String) (ts : Nat) : LanguageParams :=
  { jobs := build_jobs sentences "",
    timestamp := ts + (i_count sentences - ts % i_count sentences) }

/-- Embeds the computed-language merge of _language (deepl.py lines
301-305); unlike _translate, the user_preferred_langs key exists here
and the append succeeds. -/
def merge_language_source (p : LanguageParams) (computed_lang : Option String) :
    LanguageParams :=
  match computed_lang with
  | some c =>
    { p with lang := { p.lang with
                       source_lang_computed := some c,
                       user_preferred_langs := p.lang.user_preferred_langs ++ [some c] } }
  | none =>
    { p with lang := { p.lang with source_lang_user_selected := some "AUTO" } }

/-- One sentence record of a returned translation beam. -/
structure TransSentence where
  text : String
deriving DecidableEq

/-- One beam of a returned translation object. -/
structure Beam where
  sentences : List TransSentence
deriving DecidableEq

/-- One translation object of the job-batch response. -/
structure TransObj where
  beams : List Beam
deriving DecidableEq

/-- The job-batch result dict: the source_lang key may be absent. -/
structure JobsResult where
  source_lang : Option String
  translations : List TransObj
deriving DecidableEq

/-- Python access obj beams 0 sentences 0 text, an IndexError when a
list is empty. -/
def top_text (obj : TransObj) : Except PyErr String :=
  match obj.beams with
  | [] => .error .indexError
  | b :: _ =>
    match b.sentences with
    | [] => .error .indexError
    | s :: _ => .ok s.text

/-- Collection of the top-ranked texts of the translation objects in
order, stopping at the first failing access, as the join generator of
line 274 does when consumed. -/
def collect_top_texts : List TransObj → Except PyErr (List String)
  | [] => .ok []
  | obj :: rest =>
    match top_text obj with
    | .error e => .error e
    | .ok t =>
      match collect_top_texts rest with
      | .error e => .error e
      | .ok ts => .ok (t :: ts)

/-- Embeds the response handling tail of _translate (deepl.py lines
267-274): the detected language is the source_lang field of the result
when present (the bare except also covers an absent result), then for a
non-None result the top-ranked texts of all translation objects are
filtered for truthiness (nonempty strings) and joined with single
spaces. -/
def handle_translate_results (results : Option JobsResult) (source_language : String) :
    Except PyErr (Option (String × String)) :=
  let detected :=
    match results with
    | some r => r.source_lang.getD source_language
    | none => source_language
  match results with
  | none => .ok none
  | some r =>
    match collect_top_texts r.translations with
    | .error e => .error e
    | .ok texts =>
      .ok (some (detected, " ".intercalate (texts.filter (fun t => !(t == "")))))

/-- Embeds BingTranslate.translate (bing.py lines 55-71). The whole body
sits in a try/except returning (None, None); `transport` is the outcome
of the HTTP post and the nested Except the outcome of parsing the body
down to (detected language, translated text). The source-language
handling only shapes the outbound request and is not modelled. -/
def bing_translate (transport : Except PyErr (Nat × Except PyErr (String × String))) :
    Option String × Option String :=
  match transport with
  | .error _ => (none, none)
  | .ok (status, parsed) =>
    if status < 400 then
      match parsed with
      | .error _ => (none, none)
      | .ok (lang, text) => (some lang, some text)
    else
      (none, none)

/-- Modelled from the spec: translatepy/translators/base.py, the
provider-facing orchestrator wrapper around the internal _translate, is
not under src/. Spec section 7: the orchestrator layer catches all
failures (transport, parsing, RPC errors) from translate and converts
them to a null pair. -/
def orchestrator_translate (inner : Except PyErr (String × String)) :
    Option String × Option String :=
  match inner with
  | .error _ => (none, none)
  | .ok (lang, text) => (some lang, some text)

theorem match_loop_eq_join (text : String) (entries : List (String × String)) :
    ∀ (limit : Nat) (acc : String),
      match_loop text entries limit acc = acc ++ join_lines (matched_pairs text entries limit) := by
  induction entries with
  | nil =>
    intro limit acc
    simp [match_loop, matched_pairs, join_lines, String.append_empty]
  | cons p rest ih =>
    intro limit acc
    obtain ⟨w, t⟩ := p
    simp only [match_loop, matched_pairs]
    by_cases h1 : (str_in w text && decide (0 < limit)) = true
    · rw [if_pos h1, if_pos h1]
      by_cases h2 : (!has_quote t && !has_quote w) = true
      · rw [if_pos h2, if_pos h2, ih, join_lines]
        simp [pair_line, String.append_assoc]
      · rw [if_neg h2, if_neg h2, ih]
    · rw [if_neg h1, if_neg h1, ih]

theorem matched_pairs_length_le (text : String) (entries : List (String × String)) :
    ∀ limit : Nat, (matched_pairs text entries limit).length ≤ limit := by
  induction entries with
  | nil => intro limit; simp [matched_pairs]
  | cons p rest ih =>
    intro limit
    obtain ⟨w, t⟩ := p
    simp only [matched_pairs]
    by_cases h1 : (str_in w text && decide (0 < limit)) = true
    · rw [if_pos h1]
      have hpos : 0 < limit := of_decide_eq_true ((Bool.and_eq_true _ _).mp h1).2
      by_cases h2 : (!has_quote t && !has_quote w) = true
      · rw [if_pos h2]
        simp only [List.length_cons]
        have := ih (limit - 1)
        omega
      · rw [if_neg h2]; exact ih limit
    · rw [if_neg h1]; exact ih limit

theorem matched_pairs_mem (text : String) (entries : List (String × String)) :
    ∀ (limit : Nat) (p : String × String), p ∈ matched_pairs text entries limit →
      p ∈ entries ∧ has_quote p.1 = false ∧ has_quote p.2 = false ∧ str_in p.1 text = true := by
  induction entries with
  | nil => intro limit p hp; simp [matched_pairs] at hp
  | cons q rest ih =>
    intro limit p hp
    obtain ⟨w, t⟩ := q
    simp only [matched_pairs] at hp
    by_cases h1 : (str_in w text && decide (0 < limit)) = true
    · rw [if_pos h1] at hp
      by_cases h2 : (!has_quote t && !has_quote w) = true
      · rw [if_pos h2] at hp
        rcases List.mem_cons.mp hp with h | h
        · subst h
          have hb := (Bool.and_eq_true _ _).mp h2
          have ha := (Bool.and_eq_true _ _).mp h1
          refine ⟨List.mem_cons_self _ _, ?_, ?_, ha.1⟩
          · simpa using hb.2
          · simpa using hb.1
        · obtain ⟨hmem, hrest⟩ := ih _ _ h
          exact ⟨List.mem_cons_of_mem _ hmem, hrest⟩
      · rw [if_neg h2] at hp
        obtain ⟨hmem, hrest⟩ := ih _ _ hp
        exact ⟨List.mem_cons_of_mem _ hmem, hrest⟩
    · rw [if_neg h1] at hp
      obtain ⟨hmem, hrest⟩ := ih _ _ hp
      exact ⟨List.mem_cons_of_mem _ hmem, hrest⟩

theorem quoted_entries_skipped (text : String) (pre : List (String × String)) :
    (∀ p ∈ pre, (has_quote p.1 || has_quote p.2) = true) →
    ∀ (rest : List (String × String)) (limit : Nat) (acc : String),
      match_loop text (pre ++ rest) limit acc = match_loop text rest limit acc
      ∧ matched_pairs text (pre ++ rest) limit = matched_pairs text rest limit := by
  induction pre with
  | nil => intro _ rest limit acc; simp
  | cons q pre ih =>
    intro hq rest limit acc
    obtain ⟨w, t⟩ := q
    have hwt : (has_quote w || has_quote t) = true := hq (w, t) (List.mem_cons_self _ _)
    have h2 : (!has_quote t && !has_quote w) = false := by
      rcases (Bool.or_eq_true _ _).mp hwt with h | h <;> simp [h]
    have ihr := ih (fun p hp => hq p (List.mem_cons_of_mem _ hp)) rest limit
    simp only [List.cons_append, match_loop, matched_pairs, h2, Bool.false_eq_true, if_false]
    by_cases h1 : (str_in w text && decide (0 < limit)) = true
    · rw [if_pos h1, if_pos h1]
      exact ⟨(ihr _).1, (ihr acc).2⟩
    · rw [if_neg h1, if_neg h1]
      exact ⟨(ihr _).1, (ihr acc).2⟩

/-- C1: the local fallback path of _split_into_sentences never returns the
regex-split tuple. With REGEX_SPLIT set to True, the guarded line computes
SENTENCES_SPLITTING_REGEX.split(text) paired with None but discards the
value (the return statement is missing), so the function always returns the
remote outcome and propagates remote failures instead of falling back. -/
theorem split_fallback_discarded :
    regex_split "Hello. World" = ["Hello.", "World"]
    ∧ split_into_sentences (.ok (["Hello. World"], some "EN")) "Hello. World"
        = .ok (["Hello. World"], some "EN")
    ∧ split_into_sentences (.ok (["Hello. World"], some "EN")) "Hello. World"
        ≠ .ok (regex_split "Hello. World", none)
    ∧ split_into_sentences (.error .transport) "Hello. World" = .error .transport := by
  refine ⟨by decide, rfl, by decide, rfl⟩

/-- C2: a translate call without a glossary crashes instead of building an
empty termbase. The Python guard dictionary != "" is True for the default
None, so the code dereferences None.source_language and raises an
AttributeError before the job-batch dispatch, rather than proceeding with
an empty termbase string. -/
theorem no_glossary_crash :
    build_termbase none "Hello" "EN" "FR" = .error .attributeError
    ∧ build_termbase none "Hello" "EN" "FR" ≠ .ok "" := by
  decide

/-- C3 counterexample: load_glossary_from_csv with source EN and target KO
raises error code 5000 (unsupported glossary language), not the claimed
5002 EN-combination error: KO fails the _glossary_supported_languages check
before the combination checks are reached. -/
theorem glossary_en_ko_counterexample :
    load_glossary_from_csv (.ok ()) (.ok ⟨[], "EN", "FR"⟩) "EN" "KO"
        = .error (.deepl 5000)
    ∧ load_glossary_from_csv (.ok ()) (.ok ⟨[], "EN", "FR"⟩) "EN" "KO"
        ≠ .error (.deepl 5002) := by
  decide

/-- C3 amended: for every CSV outcome, load_glossary_from_csv with source
EN and target KO raises the typed error 5000 whose message is
"Unsported language for glossary.", because KO is not among the
glossary-supported languages; the EN-combination check (code 5002) is never
reached. -/
theorem glossary_en_ko_amended (csvRead : Except PyErr Unit)
    (csvFinal : Except PyErr FormatedGlossary) :
    load_glossary_from_csv csvRead csvFinal "EN" "KO" = .error (.deepl 5000)
    ∧ error_codes 5000 = some "Unsported language for glossary." := by
  exact ⟨rfl, rfl⟩

/-- C4: a translate call with source language "auto" fails during the
parameter build. The params lang dict of _translate never receives a
user_preferred_langs key, so the auto branch raises a KeyError when it
appends the computed language, instead of completing the merge; with an
explicit source language the build succeeds. -/
theorem translate_auto_keyerror :
    translate_params ["hi."] (some "EN") "auto" "FR" none "" 1000 = .error .keyError
    ∧ is_ok (translate_params ["hi."] (some "EN") "EN" "FR" none "" 1000) = true := by
  decide

/-- C6: the glossary matcher emits at most 10 pairs regardless of how many
entries match, and every emitted pair is an entry of the glossary whose
source and target are free of double quotes (quoted matches are skipped
with a warning; the loop is a total function and never raises). -/
theorem glossary_matcher_bounded (entries : List (String × String)) (text : String) :
    match_loop text entries 10 "" = join_lines (matched_pairs text entries 10)
    ∧ (matched_pairs text entries 10).length ≤ 10
    ∧ ∀ p ∈ matched_pairs text entries 10,
        p ∈ entries ∧ has_quote p.1 = false ∧ has_quote p.2 = false := by
  refine ⟨?_, matched_pairs_length_le text entries 10, ?_⟩
  · rw [match_loop_eq_join, String.empty_append]
  · intro p hp
    obtain ⟨hmem, hq1, hq2, _⟩ := matched_pairs_mem text entries 10 p hp
    exact ⟨hmem, hq1, hq2⟩

theorem glossary_matcher_bounded_witness :
    (matched_pairs "the cat sat" [("cat", "chat"), ("sat", "assis")] 10).length ≤ 10
    ∧ (("cat", "chat") ∈ [("cat", "chat"), ("sat", "assis")]
        ∧ has_quote "cat" = false ∧ has_quote "chat" = false) :=
  ⟨(glossary_matcher_bounded [("cat", "chat"), ("sat", "assis")] "the cat sat").2.1,
   (glossary_matcher_bounded [("cat", "chat"), ("sat", "assis")] "the cat sat").2.2
     ("cat", "chat") (by decide)⟩

/-- C10: matched entries containing a double quote do not consume the
10-pair budget. The limit is decremented only in the emitting branch, so a
block of quoted entries in front of the glossary leaves both the emitted
string and the emitted pair list of the remaining entries unchanged, for
any remaining limit. -/
theorem quoted_matches_keep_budget (text : String) (pre rest : List (String × String))
    (limit : Nat) (acc : String)
    (hq : ∀ p ∈ pre, (has_quote p.1 || has_quote p.2) = true) :
    match_loop text (pre ++ rest) limit acc = match_loop text rest limit acc
    ∧ matched_pairs text (pre ++ rest) limit = matched_pairs text rest limit :=
  quoted_entries_skipped text pre hq rest limit acc

theorem quoted_matches_keep_budget_witness :
    match_loop "a b c d e f g h i j k l"
        ([("a", "1\x22"), ("b", "2\x22")]
          ++ [("a", "1"), ("b", "2"), ("c", "3"), ("d", "4"), ("e", "5"),
              ("f", "6"), ("g", "7"), ("h", "8"), ("i", "9"), ("j", "10")]) 10 ""
      = match_loop "a b c d e f g h i j k l"
          [("a", "1"), ("b", "2"), ("c", "3"), ("d", "4"), ("e", "5"),
           ("f", "6"), ("g", "7"), ("h", "8"), ("i", "9"), ("j", "10")] 10 ""
    ∧ (matched_pairs "a b c d e f g h i j k l"
        [("a", "1"), ("b", "2"), ("c", "3"), ("d", "4"), ("e", "5"),
         ("f", "6"), ("g", "7"), ("h", "8"), ("i", "9"), ("j", "10")] 10).length = 10 :=
  ⟨(quoted_matches_keep_budget "a b c d e f g h i j k l"
      [("a", "1\x22"), ("b", "2\x22")]
      [("a", "1"), ("b", "2"), ("c", "3"), ("d", "4"), ("e", "5"),
       ("f", "6"), ("g", "7"), ("h", "8"), ("i", "9"), ("j", "10")] 10 ""
      (by decide)).1,
   by decide⟩

theorem opt_get_take (s : List String) :
    ∀ j : Nat, (if j < s.length then [s.getD j ""] else []) = (s.drop j).take 1 := by
  induction s with
  | nil => intro j; simp
  | cons a t ih =>
    intro j
    cases j with
    | zero => simp
    | succ k =>
      simp only [List.length_cons, Nat.add_lt_add_iff_right, List.getD_cons_succ,
        List.drop_succ_cons]
      exact ih k

theorem ctx_before_length (s : List String) (i : Nat) (h : i ≤ s.length) :
    (ctx_before s i).length = min i 5 := by
  simp only [ctx_before, List.length_drop, List.length_take]
  omega

theorem ctx_before_step (s : List String) (i : Nat) (h : i < s.length) :
    (if (ctx_before s i).length > 4 then (ctx_before s i).tail else ctx_before s i)
        ++ [s.getD i ""] = ctx_before s (i + 1) := by
  have hlen : (ctx_before s i).length = min i 5 := ctx_before_length s i (le_of_lt h)
  have htake : s.take (i + 1) = s.take i ++ [s.getD i ""] := by
    rw [List.take_succ, List.getElem?_eq_getElem h, List.getD_eq_getElem?_getD,
      List.getElem?_eq_getElem h]
    rfl
  rcases le_or_lt i 4 with h4 | h5
  · rw [if_neg (by omega)]
    unfold ctx_before
    rw [Nat.sub_eq_zero_of_le (by omega), Nat.sub_eq_zero_of_le (by omega)]
    simp only [List.drop_zero]
    exact htake.symm
  · rw [if_pos (by omega)]
    unfold ctx_before
    rw [List.tail_drop, htake, List.drop_append_of_le_length,
      show i + 1 - 5 = i - 5 + 1 from by omega]
    rw [List.length_take]
    omega

theorem build_jobs_aux_eq (s : List String) (q : String) :
    ∀ (n index : Nat) (before : List String),
      s.length - index = n →
      (index = 0 ∨ before = ctx_before s (index - 1)) →
      build_jobs_aux s q n index before
        = (List.range n).map (fun j => job_spec s q (index + j)) := by
  intro n
  induction n with
  | zero => intro index before _ _; simp [build_jobs_aux]
  | succ m ih =>
    intro index before hn hinv
    have hlt : index < s.length := by omega
    have hb : (if index = 0 then ([] : List String)
        else (if before.length > 4 then before.tail else before)
          ++ [s.getD (index - 1) ""]) = ctx_before s index := by
      by_cases h0 : index = 0
      · subst h0; simp [ctx_before]
      · rw [if_neg h0]
        have hbe : before = ctx_before s (index - 1) := hinv.resolve_left h0
        subst hbe
        have hstep := ctx_before_step s (index - 1) (by omega)
        rw [show index - 1 + 1 = index from by omega] at hstep
        exact hstep
    have ha : (if index + 1 < s.length then [s.getD (index + 1) ""] else [])
        = ctx_after s index := by
      rw [opt_get_take s (index + 1)]
      rfl
    simp only [build_jobs_aux]
    rw [hb, ha]
    rw [ih (index + 1) (ctx_before s index) (by omega)
      (Or.inr (by rw [Nat.add_sub_cancel]))]
    rw [List.range_succ_eq_map, List.map_cons, List.map_map]
    simp only [Nat.add_zero, Function.comp, Nat.add_succ, Nat.succ_add]
    rfl

theorem build_jobs_eq (s : List String) (q : String) :
    build_jobs s q = (List.range s.length).map (fun i => job_spec s q i) := by
  rw [build_jobs, build_jobs_aux_eq s q s.length 0 [] (by omega) (Or.inl rfl)]
  simp

theorem build_jobs_getD (s : List String) (q : String) (i : Nat) (h : i < s.length) :
    (build_jobs s q).getD i default_job = job_spec s q i := by
  rw [build_jobs_eq, List.getD_eq_getElem?_getD, List.getElem?_map, List.getElem?_range h]
  rfl

/-- C5: the job builder returns exactly one Job per sentence in input
order; for every index i the before context is the window of the at most
5 sentences immediately preceding i (length min i 5, oldest dropped
first) and the after context is the single next sentence except at the
last index, where it is empty. -/
theorem build_jobs_spec (sentences : List String) (quality : String) :
    (build_jobs sentences quality).length = sentences.length
    ∧ ∀ i : Nat, i < sentences.length →
        ((build_jobs sentences quality).getD i default_job).text = sentences.getD i ""
        ∧ ((build_jobs sentences quality).getD i default_job).raw_en_context_before
            = (sentences.take i).drop (i - 5)
        ∧ ((build_jobs sentences quality).getD i default_job).raw_en_context_before.length
            = min i 5
        ∧ ((build_jobs sentences quality).getD i default_job).raw_en_context_after
            = (if i + 1 < sentences.length then [sentences.getD (i + 1) ""] else []) := by
  constructor
  · rw [build_jobs_eq]
    simp
  · intro i h
    rw [build_jobs_getD sentences quality i h]
    refine ⟨rfl, rfl, ctx_before_length sentences i (le_of_lt h), ?_⟩
    rw [opt_get_take sentences (i + 1)]
    rfl

theorem build_jobs_spec_witness :
    (6 < (["s0", "s1", "s2", "s3", "s4", "s5", "s6"] : List String).length)
    ∧ ((build_jobs ["s0", "s1", "s2", "s3", "s4", "s5", "s6"] "").getD 6
        default_job).raw_en_context_before
      = (["s0", "s1", "s2", "s3", "s4", "s5", "s6"].take 6).drop (6 - 5) :=
  ⟨by decide,
   ((build_jobs_spec ["s0", "s1", "s2", "s3", "s4", "s5", "s6"] "").2 6 (by decide)).2.1⟩

theorem dvd_mod_trick (N ts : Nat) (h : 0 < N) : N ∣ ts + (N - ts % N) := by
  refine ⟨ts / N + 1, ?_⟩
  have h1 : ts % N < N := Nat.mod_lt _ h
  have h2 : N * (ts / N) + ts % N = ts := Nat.div_add_mod ts N
  calc ts + (N - ts % N) = N * (ts / N) + ts % N + (N - ts % N) := by omega
    _ = N * (ts / N) + N := by omega
    _ = N * (ts / N + 1) := by ring

/-- C7: both the _translate and the _language job-batch params carry the
timestamp ts + (N - ts mod N), where ts is the base clock value and
N = 1 + the total count of the character i over all sentences; that
timestamp is always divisible by N. -/
theorem timestamp_formula (sentences : List String) (src dst : String)
    (fm : Option String) (fs : String) (ts : Nat) :
    (mk_translate_params sentences src dst fm fs ts).timestamp
        = ts + (i_count sentences - ts % i_count sentences)
    ∧ i_count sentences ∣ (mk_translate_params sentences src dst fm fs ts).timestamp
    ∧ (mk_language_params sentences ts).timestamp
        = ts + (i_count sentences - ts % i_count sentences)
    ∧ i_count sentences ∣ (mk_language_params sentences ts).timestamp := by
  have hpos : 0 < i_count sentences := by
    unfold i_count
    omega
  exact ⟨rfl, dvd_mod_trick _ _ hpos, rfl, dvd_mod_trick _ _ hpos⟩

/-- C8: when every translation object of the job-batch response parses,
the translate output is the single-space join of the top-ranked (first
beam, first sentence) texts, with empty segments skipped; in particular
the three-object French response yields the expected joined string. -/
theorem translate_result_assembly :
    (∀ (r : JobsResult) (src : String) (texts : List String),
        collect_top_texts r.translations = Except.ok texts →
        handle_translate_results (some r) src
          = .ok (some (r.source_lang.getD src,
              " ".intercalate (texts.filter (fun t => !(t == ""))))))
    ∧ handle_translate_results
        (some ⟨some "FR",
          [⟨[⟨[⟨"Bonjour."⟩]⟩]⟩, ⟨[⟨[⟨"Comment ça va?"⟩]⟩]⟩, ⟨[⟨[⟨"Au revoir."⟩]⟩]⟩]⟩) "EN"
        = .ok (some ("FR", "Bonjour. Comment ça va? Au revoir."))
    ∧ handle_translate_results
        (some ⟨some "FR", [⟨[⟨[⟨"A."⟩]⟩]⟩, ⟨[⟨[⟨""⟩]⟩]⟩, ⟨[⟨[⟨"B."⟩]⟩]⟩]⟩) "EN"
        = .ok (some ("FR", "A. B.")) := by
  refine ⟨?_, by decide, by decide⟩
  intro r src texts h
  simp only [handle_translate_results]
  rw [h]

theorem translate_result_assembly_witness :
    handle_translate_results
        (some ⟨some "FR",
          [⟨[⟨[⟨"Bonjour."⟩]⟩]⟩, ⟨[⟨[⟨"Comment ça va?"⟩]⟩]⟩, ⟨[⟨[⟨"Au revoir."⟩]⟩]⟩]⟩) "EN"
      = .ok (some ((some "FR").getD "EN",
          " ".intercalate ((["Bonjour.", "Comment ça va?", "Au revoir."]).filter
            (fun t => !(t == ""))))) :=
  translate_result_assembly.1
    ⟨some "FR", [⟨[⟨[⟨"Bonjour."⟩]⟩]⟩, ⟨[⟨[⟨"Comment ça va?"⟩]⟩]⟩, ⟨[⟨[⟨"Au revoir."⟩]⟩]⟩]⟩
    "EN" ["Bonjour.", "Comment ça va?", "Au revoir."] (by decide)

/-- C9: the provider-facing translate operations convert every failure to
the null pair instead of raising: Bing translate returns (None, None) on
a transport failure, on a non-success HTTP status and on a body-parsing
failure, and the spec-modelled orchestrator wrapper does the same for
every failure of the DeepL internal translate. -/
theorem soft_fail_null_pair :
    (∀ e : PyErr, bing_translate (.error e) = (none, none))
    ∧ (∀ (status : Nat) (parsed : Except PyErr (String × String)),
        ¬ status < 400 → bing_translate (.ok (status, parsed)) = (none, none))
    ∧ (∀ (status : Nat) (e : PyErr), status < 400 →
        bing_translate (.ok (status, .error e)) = (none, none))
    ∧ (∀ e : PyErr, orchestrator_translate (.error e) = (none, none)) := by
  refine ⟨fun e => rfl, ?_, ?_, fun e => rfl⟩
  · intro status parsed h
    simp [bing_translate, h]
  · intro status e h
    simp [bing_translate, h]

theorem soft_fail_null_pair_witness :
    bing_translate (.ok (500, .ok ("en", "hi"))) = (none, none)
    ∧ bing_translate (.ok (200, .error .typeError)) = (none, none)
    ∧ orchestrator_translate (.error .transport) = (none, none) :=
  ⟨soft_fail_null_pair.2.1 500 (.ok ("en", "hi")) (by decide),
   soft_fail_null_pair.2.2.1 200 .typeError (by decide),
   soft_fail_null_pair.2.2.2 .transport⟩
